import Mathlib

/-!
# actions-per-minute-tracker: a shallow embedding of `main.go` and `win32/win32.go`

The program talks to the operating system only through the procedures that
`win32.go` loads from `user32.dll` and `kernel32.dll`.  The embedding records every
such call (procedure and argument words) and every line the program prints as an
`Event`; what the operating system answers is an explicit input (`Platform`,
`GetMessageResp`, and the `ret`/`err` parameters of the wrappers).

Machine words: the target is windows/amd64, so `uintptr` and `int` are 64 bits wide.
A `uintptr` is a `Nat` (read modulo `2 ^ 64`), an `int` is an `Int`.
-/

namespace ApmTracker

/-! ## Machine words -/

/-- Width in bits of `uintptr` and `int`. -/
def wordBits : Nat := 64

/-- Go conversion `uintptr(x)` of a signed integer: two's complement, 64 bits. -/
def toUintptr (x : Int) : Nat := (x % (2 : Int) ^ wordBits).toNat

/-- Go conversion `int(r)` of a `uintptr`: the same 64 bits read as a signed integer. -/
def toInt (r : Nat) : Int :=
  if r % 2 ^ wordBits < 2 ^ (wordBits - 1) then ((r % 2 ^ wordBits : Nat) : Int)
  else ((r % 2 ^ wordBits : Nat) : Int) - (2 : Int) ^ wordBits

/-- Result of signed 64-bit arithmetic (`int`, `int64`): wrap-around on overflow. -/
def wrapInt (x : Int) : Int := toInt (toUintptr x)

/-- Go conversion `uint16(r)`. -/
def toUint16 (r : Nat) : Nat := r % 2 ^ 16

/-! ## Constants of `win32.go` -/

def IDC_ARROW : Nat := 32512
def COLOR_WINDOW : Nat := 5

def WM_KEYDOWN : Nat := 256

def WM_LBUTTONDOWN : Nat := 513
def WM_RBUTTONDOWN : Nat := 516
def WM_MBUTTONDOWN : Nat := 519
def WM_XBUTTONDOWN : Nat := 523

def WH_KEYBOARD_LL : Int := 13
def WH_MOUSE_LL : Int := 14

def SM_CXSCREEN : Int := 0
def SM_CYSCREEN : Int := 1

def WS_EX_TOPMOST : Nat := 8
def WS_EX_TRANSPARENT : Nat := 32
def WS_EX_LAYERED : Nat := 0x00080000
def WS_EX_COMPOSITED : Nat := 0x02000000
def WS_EX_NOACTIVATE : Nat := 0x08000000

def WS_DISABLED : Nat := 134217728
def WS_VISIBLE : Nat := 268435456
def WS_POPUP : Nat := 0x80000000

def SWP_NOSIZE : Nat := 0x0001
def SWP_NOMOVE : Nat := 0x0002
def SWP_NOZORDER : Nat := 0x0004
def SWP_NOREDRAW : Nat := 0x0008
def SWP_NOACTIVATE : Nat := 0x0010
def SWP_FRAMECHANGED : Nat := 0x0020
def SWP_SHOWWINDOW : Nat := 0x0040

/-! ## Data model -/

/-- The library procedures bound in the `var` block of `win32.go`, under the names of
the Go variables that hold them. -/
inductive Proc where
  | procSetWindowsHookEx
  | procUnhookWindowsHookEx
  | procGetMessage
  | procCallNextHookEx
  | pLoadCursorW
  | procGetModuleHandleW
  | pDefWindowProcW
  | pRegisterClassExW
  | pCreateWindowExW
  | pGetSystemMetrics
  | pSetWindowPos
  | pSendMessage
  | pTranslateMessage
  | pDispatchMessageW
  deriving DecidableEq

/-- The Go functions of `main.go` that are handed to the platform as callbacks
(`syscall.NewCallback`). -/
inductive Callback where
  | keyboardCallback
  | mouseCallback
  | windowProc
  deriving DecidableEq

structure POINT where
  X : Int
  Y : Int
  deriving DecidableEq

structure MSG where
  Hwnd : Nat
  Message : Nat
  WParam : Nat
  LParam : Nat
  Time : Nat
  Pt : POINT
  deriving DecidableEq

/-- The zero value of `MSG` (`var msg win32.MSG`). -/
def MSG.zero : MSG := ⟨0, 0, 0, 0, 0, ⟨0, 0⟩⟩

structure WNDCLASSEXW where
  size : Nat
  style : Nat
  wndProc : Option Callback
  clsExtra : Int
  wndExtra : Int
  hinst : Nat
  icon : Nat
  cursor : Nat
  background : Nat
  menuName : Option String
  className : Option String
  iconSm : Nat
  deriving DecidableEq

/-- Size in bytes of `WNDCLASSEXW` on a 64-bit target (`unsafe.Sizeof`): the fields
in declaration order, none needing padding. -/
def sizeofWNDCLASSEXW : Nat := 4 + 4 + 8 + 4 + 4 + 8 + 8 + 8 + 8 + 8 + 8 + 8

/-- One argument word of a procedure call.  A pointer is recorded by what it points
to when the call is made. -/
inductive Arg where
  /-- a plain `uintptr` -/
  | word (w : Nat)
  /-- the pointer `syscall.StringToUTF16Ptr(s)` -/
  | utf16 (s : String)
  /-- the pointer `unsafe.Pointer(msg)`, with the message stored there -/
  | msgPtr (m : MSG)
  /-- the pointer `unsafe.Pointer(wcx)`, with the class stored there -/
  | wndClassPtr (c : WNDCLASSEXW)
  /-- the code pointer `syscall.NewCallback(f)` -/
  | callback (f : Callback)
  deriving DecidableEq

/-- What the program does that can be seen from outside. -/
inductive Event where
  /-- a call `p.Call(args...)` of a bound procedure -/
  | call (p : Proc) (args : List Arg)
  /-- a line printed by `fmt.Println(text)` or `fmt.Println(text, v)` -/
  | println (text : String) (v : Option Int)
  /-- a line printed by `fmt.Println(text, msg)` -/
  | printlnMsg (text : String) (m : MSG)
  /-- a line logged by `log.Println(err)` -/
  | logln (err : Nat)
  deriving DecidableEq

/-! ## The wrappers of `win32.go`

Each wrapper takes first what the platform answers (`ret`, and `err` where the
wrapper looks at it) and returns the call it makes together with its Go result. -/

set_option linter.constructorNameAsVariable false in
def NewWNDClasss (className : String) (windowProc : Callback) (hinst cursor : Nat) :
    WNDCLASSEXW :=
  let wnclass : WNDCLASSEXW :=
    { size := 0, style := 0
      wndProc := some windowProc
      clsExtra := 0, wndExtra := 0
      hinst := hinst
      icon := 0
      cursor := cursor
      background := COLOR_WINDOW + 1
      menuName := none
      className := some className
      iconSm := 0 }
  { wnclass with size := sizeofWNDCLASSEXW % 2 ^ 32 }

def DefWindowProc (ret : Nat) (hwnd : Nat) (msg : Nat) (wparam lparam : Nat) : Event × Nat :=
  (.call .pDefWindowProcW [.word hwnd, .word msg, .word wparam, .word lparam], ret)

def RegisterClassEx (ret err : Nat) (wcx : WNDCLASSEXW) : Event × Except Nat Nat :=
  (.call .pRegisterClassExW [.wndClassPtr wcx],
    if ret = 0 then .error err else .ok (toUint16 ret))

set_option linter.unusedVariables false in
def CreateWindow (ret : Nat) (exStyle : Nat) (className windowName : String) (style : Nat)
    (x y width height : Int) (parent menu hinst : Nat) : Event × Nat :=
  (.call .pCreateWindowExW
    [.word 0,
     .utf16 className,
     .utf16 windowName,
     .word style,
     .word (toUintptr x),
     .word (toUintptr y),
     .word (toUintptr width),
     .word (toUintptr height),
     .word parent,
     .word menu,
     .word hinst,
     .word 0], ret)

def GetSystemMetrics (ret : Nat) (index : Int) : Event × Int :=
  (.call .pGetSystemMetrics [.word (toUintptr index)], toInt ret)

def SetWindowPos (ret : Nat) (hwnd hWndInsertAfter : Nat) (x y cx cy : Int) (uFlags : Nat) :
    Event × Bool :=
  (.call .pSetWindowPos
    [.word hwnd, .word hWndInsertAfter, .word (toUintptr x), .word (toUintptr y),
     .word (toUintptr cx), .word (toUintptr cy), .word uFlags], ret != 0)

def SendMessage (ret : Nat) (hwnd : Nat) (msg : Int) (wparam lparam : Nat) : Event × Nat :=
  (.call .pSendMessage [.word hwnd, .word (toUintptr msg), .word wparam, .word lparam], ret)

def DispatchMessage (msg : MSG) : Event :=
  .call .pDispatchMessageW [.msgPtr msg]

def TranslateMessage (msg : MSG) : Event :=
  .call .pTranslateMessage [.msgPtr msg]

def GetModuleHandle (ret err : Nat) : Event × Except Nat Nat :=
  (.call .procGetModuleHandleW [.word 0], if ret = 0 then .error err else .ok ret)

def LoadCursorResource (ret err : Nat) (cursorName : Nat) : Event × Except Nat Nat :=
  (.call .pLoadCursorW [.word 0, .word (toUint16 cursorName)],
    if ret = 0 then .error err else .ok ret)

def SetWindowsHookEx (ret : Nat) (idHook : Int) (lpfn : Callback) (hMod dwThreadId : Nat) :
    Event × Nat :=
  (.call .procSetWindowsHookEx
    [.word (toUintptr idHook), .callback lpfn, .word hMod, .word dwThreadId], ret)

def UnhookWindowsHookEx (ret : Nat) (hhk : Nat) : Event × Bool :=
  (.call .procUnhookWindowsHookEx [.word hhk], ret != 0)

/-- What `GetMessageW` answers: its return word and the message it stores through
the pointer. -/
structure GetMessageResp where
  ret : Nat
  msg : MSG
  deriving DecidableEq

/-- The wrapper `GetMessage`: the call, the Go result `int(ret)`, and the content of
`*msg` afterwards. -/
def GetMessage (resp : GetMessageResp) (msg : MSG) (hwnd : Nat) (msgFilterMin msgFilterMax : Nat) :
    Event × Int × MSG :=
  (.call .procGetMessage
    [.msgPtr msg, .word hwnd, .word msgFilterMin, .word msgFilterMax], toInt resp.ret, resp.msg)

def CallNextHookEx (ret : Nat) (hhk : Nat) (nCode : Int) (wparam lparam : Nat) : Event × Nat :=
  (.call .procCallNextHookEx
    [.word hhk, .word (toUintptr nCode), .word wparam, .word lparam], ret)

/-! ## `main.go` -/

structure callback where
  hookKeyboard : Nat
  hookMouse : Nat
  deriving DecidableEq

/-- The method `(*callback).keyboardCallback`; `next` is what `CallNextHookEx` answers.
Returns the events of the invocation and the `LRESULT`. -/
def keyboardCallback (c : callback) (next : Nat) (code : Int) (wparam lparam : Nat) :
    List Event × Nat :=
  let printed : List Event :=
    if code ≥ 0 then
      if wparam = WM_KEYDOWN then [.println "got called keyboard" (some (wparam : Int))]
      else []
    else []
  let r := CallNextHookEx next c.hookKeyboard code wparam lparam
  (printed ++ [r.1], r.2)

/-- The method `(*callback).mouseCallback`. -/
def mouseCallback (c : callback) (next : Nat) (code : Int) (wparam lparam : Nat) :
    List Event × Nat :=
  let printed : List Event :=
    if code ≥ 0 then
      if wparam = WM_LBUTTONDOWN ∨
          wparam = WM_RBUTTONDOWN ∨
          wparam = WM_XBUTTONDOWN ∨
          wparam = WM_MBUTTONDOWN then
        [.println "got called mouse" (some (wparam : Int))]
      else []
    else []
  let r := CallNextHookEx next c.hookMouse code wparam lparam
  (printed ++ [r.1], r.2)

/-- The window procedure `windowProc`. -/
def windowProc (ret : Nat) (hwnd : Nat) (msg : Nat) (wparam lparam : Nat) : Event × Nat :=
  DefWindowProc ret hwnd msg wparam lparam

/-- Everything the platform answers to the calls of `main`, in the order `main` asks. -/
structure Platform where
  /-- answer of `SetWindowsHookExW(WH_KEYBOARD_LL, ...)` -/
  hookKeyboard : Nat
  /-- answer of `SetWindowsHookExW(WH_MOUSE_LL, ...)` -/
  hookMouse : Nat
  /-- answer of `GetModuleHandleW`: return word and error -/
  moduleHandle : Nat × Nat
  /-- answer of `LoadCursorW`: return word and error -/
  cursor : Nat × Nat
  /-- answer of `RegisterClassExW`: return word and error -/
  classAtom : Nat × Nat
  /-- answer of `GetSystemMetrics(SM_CXSCREEN)` -/
  cxScreen : Nat
  /-- answer of `CreateWindowExW` -/
  hwnd : Nat
  /-- answer of `SetWindowPos` -/
  setWindowPos : Nat
  /-- the successive answers of `GetMessageW`; when they run out the call blocks -/
  messages : List GetMessageResp
  /-- answers of `UnhookWindowsHookEx`, first and second call -/
  unhookKeyboard : Nat
  unhookMouse : Nat

/-- The `for` loop at the end of `main`, started with `msg` in the local variable.
Returns the events and whether the loop was left (`break`); with no answer left the
last `GetMessageW` call does not return. -/
def messageLoop (msg : MSG) : List GetMessageResp → List Event × Bool
  | [] =>
    ([.println "looping..." none,
      .call .procGetMessage [.msgPtr msg, .word 0, .word 0, .word 0]], false)
  | resp :: rest =>
    let g := GetMessage resp msg 0 0 0
    let msgVal := g.2.1
    let msg := g.2.2
    if msgVal ≤ 0 then
      ([.println "looping..." none, g.1, .println "bad msg val" (some msgVal)], true)
    else
      let r := messageLoop msg rest
      ([.println "looping..." none, g.1, .printlnMsg "got msg" msg,
        TranslateMessage msg, DispatchMessage msg] ++ r.1, r.2)

/-- What the goroutine started by `go func()` has captured: the window handle and
the local variable `counter`. -/
structure Ticker where
  hwnd : Nat
  counter : Int
  deriving DecidableEq

/-- One run of `main`. -/
structure Run where
  /-- events of the main thread, in order -/
  trace : List Event
  /-- whether `main` returned -/
  exited : Bool
  /-- the variable `cb` after the hooks were stored in it -/
  cb : callback
  /-- the goroutine, if `main` got as far as starting it -/
  ticker : Option Ticker

/-- The function `main` on the platform `P`.  The deferred function (the two
`UnhookWindowsHookEx` calls) runs whenever `main` returns; the variable the source
calls `instance` is `hinst` here, the former being a keyword. -/
def main (P : Platform) : Run :=
  let e0 : Event := .println "starting main..." none
  let k := SetWindowsHookEx P.hookKeyboard WH_KEYBOARD_LL .keyboardCallback 0 0
  let hookKeyboard := k.2
  let m := SetWindowsHookEx P.hookMouse WH_MOUSE_LL .mouseCallback 0 0
  let hookMouse := m.2
  let deferred : List Event :=
    [(UnhookWindowsHookEx P.unhookKeyboard hookKeyboard).1,
     (UnhookWindowsHookEx P.unhookMouse hookMouse).1]
  let cb : callback := { hookKeyboard := hookKeyboard, hookMouse := hookMouse }
  let className := "apm-window-object"
  let mh := GetModuleHandle P.moduleHandle.1 P.moduleHandle.2
  match mh.2 with
  | .error err => ⟨[e0, k.1, m.1, mh.1, .logln err] ++ deferred, true, cb, none⟩
  | .ok hinst =>
    let lc := LoadCursorResource P.cursor.1 P.cursor.2 IDC_ARROW
    match lc.2 with
    | .error err => ⟨[e0, k.1, m.1, mh.1, lc.1, .logln err] ++ deferred, true, cb, none⟩
    | .ok cursor =>
      let wndClass := NewWNDClasss className .windowProc hinst cursor
      let rc := RegisterClassEx P.classAtom.1 P.classAtom.2 wndClass
      match rc.2 with
      | .error err =>
        ⟨[e0, k.1, m.1, mh.1, lc.1, rc.1, .logln err] ++ deferred, true, cb, none⟩
      | .ok _ =>
        let height : Int := 35
        let width : Int := 130
        let extraStyles : Nat :=
          (WS_EX_COMPOSITED ||| WS_EX_LAYERED ||| WS_EX_NOACTIVATE ||| WS_EX_TOPMOST
            ||| WS_EX_TRANSPARENT) % 2 ^ 32
        let styles : Nat := (WS_VISIBLE ||| WS_POPUP) % 2 ^ 32
        let sm := GetSystemMetrics P.cxScreen SM_CXSCREEN
        let cw := CreateWindow P.hwnd
          extraStyles
          className
          "Test Pupper Window"
          styles
          (wrapInt (sm.2 - width))
          (wrapInt (height * 2))
          width
          height
          0
          0
          hinst
        let hwnd := cw.2
        let sp := SetWindowPos P.setWindowPos
          hwnd
          (2 ^ wordBits - 1)
          0
          0
          0
          0
          (SWP_NOACTIVATE ||| SWP_NOMOVE ||| SWP_NOSIZE ||| SWP_SHOWWINDOW)
        let counter : Int := 1000
        let loop := messageLoop MSG.zero P.messages
        ⟨[e0, k.1, m.1, mh.1, lc.1, rc.1, sm.1, cw.1, sp.1] ++ loop.1 ++
            (if loop.2 then deferred else []),
          loop.2, cb, some ⟨hwnd, counter⟩⟩

/-! ## The hook callbacks and the ticker goroutine, running beside `main` -/

/-- The state shared by the callbacks and the goroutine once `main` has started the
goroutine: `cb`, `hwnd`, `counter`, and the events they have produced so far. -/
structure ProgState where
  cb : callback
  hwnd : Nat
  counter : Int
  out : List Event
  deriving DecidableEq

/-- The state in which `main` enters its message loop. -/
def ProgState.ofRun (r : Run) : Option ProgState :=
  r.ticker.map fun t => ⟨r.cb, t.hwnd, t.counter, []⟩

/-- One invocation of a hook by the platform, with what `CallNextHookEx` answers. -/
inductive HookCall where
  /-- the keyboard hook is invoked: `cb.keyboardCallback(code, wparam, lparam)` -/
  | keyboard (code : Int) (wparam lparam : Nat) (next : Nat)
  /-- the mouse hook is invoked: `cb.mouseCallback(code, wparam, lparam)` -/
  | mouse (code : Int) (wparam lparam : Nat) (next : Nat)
  deriving DecidableEq

/-- Runs the callback the hook invocation is addressed to. -/
def HookCall.run (c : callback) : HookCall → List Event × Nat
  | .keyboard code wparam lparam next => keyboardCallback c next code wparam lparam
  | .mouse code wparam lparam next => mouseCallback c next code wparam lparam

/-- One thing that happens beside the message loop. -/
inductive Invocation where
  /-- the platform invokes a hook -/
  | hook (h : HookCall)
  /-- the channel `ticker.C` delivers a tick to the goroutine; `sendRet` is what
  `SendMessageW` answers -/
  | tick (sendRet : Nat)
  deriving DecidableEq

/-- One step: a hook invocation runs the callback; a tick runs the `select` case
`win32.SendMessage(hwnd, 35001, 0, 0); counter++`. -/
def step (s : ProgState) : Invocation → ProgState
  | .hook h => { s with out := s.out ++ (h.run s.cb).1 }
  | .tick sendRet =>
    { s with
      out := s.out ++ [(SendMessage sendRet s.hwnd 35001 0 0).1]
      counter := wrapInt (s.counter + 1) }

def runInvocations (s : ProgState) (invs : List Invocation) : ProgState :=
  invs.foldl step s

/-! ## Observations on event lists -/

/-- Is the event a line printed with `fmt.Println(text, v)`? -/
def Event.isPrintln : Event → Bool
  | .println _ _ => true
  | _ => false

/-- An invocation of a callback is recognised when the callback reports it, that is,
when it takes the branch that prints. -/
def recognised (evs : List Event) : Bool := evs.any Event.isPrintln

/-- The lines printed with `fmt.Println(text, v)`, in order. -/
def printedLines (evs : List Event) : List Event := evs.filter Event.isPrintln

/-- The argument lists of the calls of procedure `p`, in order. -/
def callsOf (p : Proc) (evs : List Event) : List (List Arg) :=
  evs.filterMap fun
    | .call q args => if q = p then some args else none
    | _ => none

/-- The steps of the message loop, as seen by the platform. -/
inductive LoopAct where
  | get
  | translate (m : MSG)
  | dispatch (m : MSG)
  deriving DecidableEq

/-- Reads a message-loop step off an event; other events are none. -/
def Event.loopAct : Event → Option LoopAct
  | .call .procGetMessage _ => some .get
  | .call .pTranslateMessage [.msgPtr m] => some (.translate m)
  | .call .pDispatchMessageW [.msgPtr m] => some (.dispatch m)
  | _ => none

/-- The payload `(wparam, lparam)` of every message sent with `SendMessageW`. -/
def sentPayloads (evs : List Event) : List (Arg × Arg) :=
  evs.filterMap fun
    | .call .pSendMessage [_, _, w, l] => some (w, l)
    | _ => none

/-- Is the hook invocation a key-down event: keyboard hook, `code >= 0`,
`wparam = WM_KEYDOWN`? -/
def HookCall.isKeyDown : HookCall → Bool
  | .keyboard code wparam _ _ => decide (0 ≤ code) && wparam == 256
  | .mouse _ _ _ _ => false

/-- Is the hook invocation a mouse-button-down event: mouse hook, `code >= 0`,
`wparam` one of the four button-down messages? -/
def HookCall.isMouseDown : HookCall → Bool
  | .keyboard _ _ _ _ => false
  | .mouse code wparam _ _ =>
    decide (0 ≤ code) && (wparam == 513 || wparam == 516 || wparam == 519 || wparam == 523)

/-! ## Concrete platforms -/

/-- A platform on which every set-up call succeeds and the first `GetMessageW`
answers `0` (`WM_QUIT`). -/
def quitAtOnce : Platform :=
  { hookKeyboard := 0x1001, hookMouse := 0x1002
    moduleHandle := (0x400000, 0), cursor := (0x10003, 0), classAtom := (0xC001, 0)
    cxScreen := 1920, hwnd := 0x2002, setWindowPos := 1
    messages := [⟨0, MSG.zero⟩]
    unhookKeyboard := 1, unhookMouse := 1 }

/-- A message as `GetMessageW` might store it. -/
def sampleMsg : MSG := ⟨0x2002, 15, 0, 0, 77, ⟨10, 20⟩⟩

/-- A platform on which every set-up call succeeds and `GetMessageW` has answered
once so far; `main` is waiting in its second `GetMessageW` call. -/
def running : Platform := { quitAtOnce with messages := [⟨1, sampleMsg⟩] }

/-- As `quitAtOnce`, but `SetWindowsHookExW` answers the null handle for the
keyboard hook. -/
def keyboardHookRefused : Platform := { quitAtOnce with hookKeyboard := 0 }

/-- As `quitAtOnce`, but `SetWindowsHookExW` answers the null handle for the mouse
hook. -/
def mouseHookRefused : Platform := { quitAtOnce with hookMouse := 0 }

/-- As `quitAtOnce`, but `CreateWindowExW` answers the null window handle; one
message arrives before `GetMessageW` answers `0`. -/
def windowRefused : Platform :=
  { quitAtOnce with hwnd := 0, messages := [⟨1, sampleMsg⟩, ⟨0, MSG.zero⟩] }

/-- The state beside the message loop on the platform `running`. -/
def startState : ProgState := ⟨⟨0x1001, 0x1002⟩, 0x2002, 1000, []⟩

/-- Three key-down and two mouse-button-down hook invocations. -/
def fiveEvents : List HookCall :=
  [.keyboard 0 256 30 0, .mouse 0 513 0 0, .keyboard 0 256 31 0, .keyboard 0 256 32 0,
   .mouse 0 516 0 0]

/-- The events of `main` before the message loop when every checked call succeeds. -/
def setupEvents (P : Platform) : List Event :=
  [.println "starting main..." none,
   (SetWindowsHookEx P.hookKeyboard WH_KEYBOARD_LL .keyboardCallback 0 0).1,
   (SetWindowsHookEx P.hookMouse WH_MOUSE_LL .mouseCallback 0 0).1,
   (GetModuleHandle P.moduleHandle.1 P.moduleHandle.2).1,
   (LoadCursorResource P.cursor.1 P.cursor.2 IDC_ARROW).1,
   (RegisterClassEx P.classAtom.1 P.classAtom.2
      (NewWNDClasss "apm-window-object" .windowProc P.moduleHandle.1 P.cursor.1)).1,
   (GetSystemMetrics P.cxScreen SM_CXSCREEN).1,
   (CreateWindow P.hwnd 0x0A080028 "apm-window-object" "Test Pupper Window" 0x90000000
      (wrapInt (toInt P.cxScreen - 130)) 70 130 35 0 0 P.moduleHandle.1).1,
   (SetWindowPos P.setWindowPos P.hwnd (2 ^ 64 - 1) 0 0 0 0 0x53).1]

/-- The two calls of the deferred function of `main`. -/
def deferredEvents (P : Platform) : List Event :=
  [.call .procUnhookWindowsHookEx [.word P.hookKeyboard],
   .call .procUnhookWindowsHookEx [.word P.hookMouse]]

/-! ## Helper lemmas -/

theorem toInt_of_lt {r : Nat} (h : r < 2 ^ 63) : toInt r = (r : Int) := by
  have h64 : r % 2 ^ 64 = r := Nat.mod_eq_of_lt (by omega)
  simp only [toInt, wordBits, h64]
  rw [if_pos (by simpa using h)]

theorem toInt_of_ge {r : Nat} (h : 2 ^ 63 ≤ r) (h64 : r < 2 ^ 64) :
    toInt r = (r : Int) - 2 ^ 64 := by
  have hm : r % 2 ^ 64 = r := Nat.mod_eq_of_lt h64
  simp only [toInt, wordBits, hm]
  rw [if_neg (by simpa using h)]

theorem recognised_keyboardCallback (c : callback) (next : Nat) (code : Int)
    (wparam lparam : Nat) :
    recognised (keyboardCallback c next code wparam lparam).1 = true ↔
      0 ≤ code ∧ wparam = 256 := by
  by_cases hc : 0 ≤ code <;> by_cases hw : wparam = 256 <;>
    simp [keyboardCallback, recognised, Event.isPrintln, CallNextHookEx, WM_KEYDOWN, hc, hw]

theorem recognised_mouseCallback (c : callback) (next : Nat) (code : Int)
    (wparam lparam : Nat) :
    recognised (mouseCallback c next code wparam lparam).1 = true ↔
      0 ≤ code ∧ (wparam = 513 ∨ wparam = 516 ∨ wparam = 519 ∨ wparam = 523) := by
  by_cases hc : 0 ≤ code
  · by_cases hw : wparam = 513 ∨ wparam = 516 ∨ wparam = 523 ∨ wparam = 519
    · have hw2 : wparam = 513 ∨ wparam = 516 ∨ wparam = 519 ∨ wparam = 523 := by omega
      simp [mouseCallback, recognised, Event.isPrintln, CallNextHookEx, WM_LBUTTONDOWN,
        WM_RBUTTONDOWN, WM_MBUTTONDOWN, WM_XBUTTONDOWN, hc, hw, hw2]
    · have hw2 : ¬ (wparam = 513 ∨ wparam = 516 ∨ wparam = 519 ∨ wparam = 523) := by omega
      simp [mouseCallback, recognised, Event.isPrintln, CallNextHookEx, WM_LBUTTONDOWN,
        WM_RBUTTONDOWN, WM_MBUTTONDOWN, WM_XBUTTONDOWN, hc, hw, hw2]
  · simp [mouseCallback, recognised, Event.isPrintln, CallNextHookEx, hc]

/-! ### The message loop -/

theorem messageLoop_calls (msg : MSG) (rs : List GetMessageResp) :
    ∀ e ∈ (messageLoop msg rs).1, ∀ p args, e = Event.call p args →
      p = .procGetMessage ∨ p = .pTranslateMessage ∨ p = .pDispatchMessageW := by
  induction rs generalizing msg with
  | nil =>
    intro e he p args hp
    simp [messageLoop] at he
    rcases he with rfl | rfl <;> simp_all
  | cons r rs ih =>
    intro e he p args hp
    simp only [messageLoop] at he
    split at he
    · simp [GetMessage] at he
      rcases he with rfl | rfl | rfl <;> simp_all
    · simp [GetMessage, TranslateMessage, DispatchMessage] at he
      rcases he with rfl | rfl | rfl | rfl | rfl | he
      · simp at hp
      · simp_all
      · simp at hp
      · simp_all
      · simp_all
      · exact ih _ e he p args hp

theorem callsOf_append (p : Proc) (a b : List Event) :
    callsOf p (a ++ b) = callsOf p a ++ callsOf p b := by
  simp [callsOf, List.filterMap_append]

theorem callsOf_messageLoop (p : Proc) (hg : p ≠ .procGetMessage) (ht : p ≠ .pTranslateMessage)
    (hd : p ≠ .pDispatchMessageW) (msg : MSG) (rs : List GetMessageResp) :
    callsOf p (messageLoop msg rs).1 = [] := by
  rw [callsOf, List.filterMap_eq_nil_iff]
  intro e he
  cases e with
  | call q args =>
    have := messageLoop_calls msg rs _ he q args rfl
    have hq : q ≠ p := by
      rcases this with rfl | rfl | rfl
      · exact fun h => hg h.symm
      · exact fun h => ht h.symm
      · exact fun h => hd h.symm
    simp [hq]
  | _ => rfl

theorem main_of_setup_ok (P : Platform) (h1 : P.moduleHandle.1 ≠ 0) (h2 : P.cursor.1 ≠ 0)
    (h3 : P.classAtom.1 ≠ 0) :
    (main P).trace = setupEvents P ++ (messageLoop MSG.zero P.messages).1 ++
        (if (messageLoop MSG.zero P.messages).2 then deferredEvents P else []) ∧
      (main P).exited = (messageLoop MSG.zero P.messages).2 ∧
      (main P).ticker = some ⟨P.hwnd, 1000⟩ ∧
      (main P).cb = ⟨P.hookKeyboard, P.hookMouse⟩ := by
  refine ⟨?_, ?_, ?_, ?_⟩
  · simp [main, GetModuleHandle, LoadCursorResource, RegisterClassEx, h1, h2, h3,
      UnhookWindowsHookEx, SetWindowsHookEx, setupEvents, deferredEvents, GetSystemMetrics,
      CreateWindow, SetWindowPos]
    exact ⟨⟨by decide, by decide⟩, by decide, by decide⟩
  · simp [main, GetModuleHandle, LoadCursorResource, RegisterClassEx, h1, h2, h3]
  · simp [main, GetModuleHandle, LoadCursorResource, RegisterClassEx, h1, h2, h3, CreateWindow]
  · simp [main, GetModuleHandle, LoadCursorResource, RegisterClassEx, h1, h2, h3, SetWindowsHookEx]

theorem main_of_moduleHandle_zero (P : Platform) (h1 : P.moduleHandle.1 = 0) :
    (main P).trace = (setupEvents P).take 4 ++ [.logln P.moduleHandle.2] ++ deferredEvents P ∧
      (main P).exited = true ∧ (main P).ticker = none ∧
      (main P).cb = ⟨P.hookKeyboard, P.hookMouse⟩ := by
  simp [main, GetModuleHandle, h1, setupEvents, deferredEvents, UnhookWindowsHookEx,
    SetWindowsHookEx]

theorem main_of_cursor_zero (P : Platform) (h1 : P.moduleHandle.1 ≠ 0) (h2 : P.cursor.1 = 0) :
    (main P).trace = (setupEvents P).take 5 ++ [.logln P.cursor.2] ++ deferredEvents P ∧
      (main P).exited = true ∧ (main P).ticker = none ∧
      (main P).cb = ⟨P.hookKeyboard, P.hookMouse⟩ := by
  simp [main, GetModuleHandle, LoadCursorResource, h1, h2, setupEvents, deferredEvents,
    UnhookWindowsHookEx, SetWindowsHookEx]

theorem main_of_classAtom_zero (P : Platform) (h1 : P.moduleHandle.1 ≠ 0) (h2 : P.cursor.1 ≠ 0)
    (h3 : P.classAtom.1 = 0) :
    (main P).trace = (setupEvents P).take 6 ++ [.logln P.classAtom.2] ++ deferredEvents P ∧
      (main P).exited = true ∧ (main P).ticker = none ∧
      (main P).cb = ⟨P.hookKeyboard, P.hookMouse⟩ := by
  simp [main, GetModuleHandle, LoadCursorResource, RegisterClassEx, h1, h2, h3, setupEvents,
    deferredEvents, UnhookWindowsHookEx, SetWindowsHookEx]

theorem callsOf_unhook_setupEvents (P : Platform) (n : Nat) :
    callsOf .procUnhookWindowsHookEx ((setupEvents P).take n) = [] := by
  rw [callsOf, List.filterMap_eq_nil_iff]
  intro e he
  have he2 := List.mem_of_mem_take he
  simp only [setupEvents, SetWindowsHookEx, GetModuleHandle, LoadCursorResource,
    RegisterClassEx, GetSystemMetrics, CreateWindow, SetWindowPos, List.mem_cons,
    List.mem_singleton, List.not_mem_nil, or_false] at he2
  rcases he2 with rfl | rfl | rfl | rfl | rfl | rfl | rfl | rfl | rfl <;> simp

theorem callsOf_unhook_deferredEvents (P : Platform) :
    callsOf .procUnhookWindowsHookEx (deferredEvents P) =
      [[.word P.hookKeyboard], [.word P.hookMouse]] := by
  simp [callsOf, deferredEvents]

/-- On every run in which `main` returns, the calls of `UnhookWindowsHookEx` are the
two of the deferred function. -/
theorem callsOf_unhook_main (P : Platform) (hexit : (main P).exited = true) :
    callsOf .procUnhookWindowsHookEx (main P).trace =
      [[.word P.hookKeyboard], [.word P.hookMouse]] := by
  by_cases h1 : P.moduleHandle.1 = 0
  · rw [(main_of_moduleHandle_zero P h1).1, callsOf_append, callsOf_append,
      callsOf_unhook_setupEvents, callsOf_unhook_deferredEvents]
    simp [callsOf]
  by_cases h2 : P.cursor.1 = 0
  · rw [(main_of_cursor_zero P h1 h2).1, callsOf_append, callsOf_append,
      callsOf_unhook_setupEvents, callsOf_unhook_deferredEvents]
    simp [callsOf]
  by_cases h3 : P.classAtom.1 = 0
  · rw [(main_of_classAtom_zero P h1 h2 h3).1, callsOf_append, callsOf_append,
      callsOf_unhook_setupEvents, callsOf_unhook_deferredEvents]
    simp [callsOf]
  obtain ⟨ht, he, -, -⟩ := main_of_setup_ok P h1 h2 h3
  rw [he] at hexit
  rw [ht, hexit, if_pos rfl, callsOf_append, callsOf_append, callsOf_unhook_deferredEvents,
    callsOf_messageLoop _ (by decide) (by decide) (by decide)]
  have := callsOf_unhook_setupEvents P 9
  rw [List.take_of_length_le (by simp [setupEvents])] at this
  rw [this]
  rfl

theorem runInvocations_hooks (s : ProgState) (hooks : List HookCall) :
    runInvocations s (hooks.map .hook) =
      { s with out := s.out ++ hooks.flatMap (fun h => (h.run s.cb).1) } := by
  induction hooks generalizing s with
  | nil => simp [runInvocations]
  | cons h hooks ih =>
    have := ih (step s (.hook h))
    simp only [runInvocations, List.map_cons, List.foldl_cons] at this ⊢
    rw [this]
    simp [step]

theorem printedLines_run (c : callback) (h : HookCall) :
    (printedLines (h.run c).1).length =
      (if h.isKeyDown then 1 else 0) + (if h.isMouseDown then 1 else 0) := by
  cases h with
  | keyboard code wparam lparam next =>
    by_cases hc : 0 ≤ code <;> by_cases hw : wparam = 256 <;>
      simp [HookCall.run, keyboardCallback, printedLines, Event.isPrintln, CallNextHookEx,
        WM_KEYDOWN, HookCall.isKeyDown, HookCall.isMouseDown, hc, hw]
  | mouse code wparam lparam next =>
    by_cases hc : 0 ≤ code
    · by_cases hw : wparam = 513 ∨ wparam = 516 ∨ wparam = 523 ∨ wparam = 519
      · have hw2 : ((wparam = 513 ∨ wparam = 516) ∨ wparam = 519) ∨ wparam = 523 := by omega
        simp [HookCall.run, mouseCallback, printedLines, Event.isPrintln, CallNextHookEx,
          WM_LBUTTONDOWN, WM_RBUTTONDOWN, WM_MBUTTONDOWN, WM_XBUTTONDOWN, HookCall.isKeyDown,
          HookCall.isMouseDown, hc, hw, hw2]
      · have hw2 : ¬ (((wparam = 513 ∨ wparam = 516) ∨ wparam = 519) ∨ wparam = 523) := by
          omega
        simp [HookCall.run, mouseCallback, printedLines, Event.isPrintln, CallNextHookEx,
          WM_LBUTTONDOWN, WM_RBUTTONDOWN, WM_MBUTTONDOWN, WM_XBUTTONDOWN, HookCall.isKeyDown,
          HookCall.isMouseDown, hc, hw, hw2]
    · simp [HookCall.run, mouseCallback, printedLines, Event.isPrintln, CallNextHookEx,
        HookCall.isKeyDown, HookCall.isMouseDown, hc]

theorem printedLines_hooks (c : callback) (hooks : List HookCall) :
    (printedLines (hooks.flatMap (fun h => (h.run c).1))).length =
      hooks.countP HookCall.isKeyDown + hooks.countP HookCall.isMouseDown := by
  induction hooks with
  | nil => simp [printedLines]
  | cons h hooks ih =>
    have hh := printedLines_run c h
    simp only [printedLines] at ih hh
    simp only [printedLines, List.flatMap_cons, List.filter_append, List.length_append,
      List.countP_cons, ih, hh]
    omega

theorem sentPayloads_append (a b : List Event) :
    sentPayloads (a ++ b) = sentPayloads a ++ sentPayloads b := by
  simp [sentPayloads, List.filterMap_append]

theorem sentPayloads_hooks (c : callback) (hooks : List HookCall) :
    sentPayloads (hooks.flatMap (fun h => (h.run c).1)) = [] := by
  rw [sentPayloads, List.filterMap_eq_nil_iff]
  intro e he
  rw [List.mem_flatMap] at he
  obtain ⟨h, -, he⟩ := he
  cases h with
  | keyboard code wparam lparam next =>
    simp only [HookCall.run, keyboardCallback, CallNextHookEx, List.mem_append,
      List.mem_singleton] at he
    rcases he with he | rfl
    · split at he
      · split at he
        · simp only [List.mem_singleton] at he; subst he; rfl
        · simp at he
      · simp at he
    · rfl
  | mouse code wparam lparam next =>
    simp only [HookCall.run, mouseCallback, CallNextHookEx, List.mem_append,
      List.mem_singleton] at he
    rcases he with he | rfl
    · split at he
      · split at he
        · simp only [List.mem_singleton] at he; subst he; rfl
        · simp at he
      · simp at he
    · rfl

/-! ## Event recognition (C9) -/

/-- C9: event recognition is exact.  `keyboardCallback` reports an invocation (takes
its printing branch) if and only if `code >= 0` and `wparam = WM_KEYDOWN = 256`;
`mouseCallback` does so if and only if `code >= 0` and `wparam` is one of 513, 516,
519, 523; and neither decision changes when `lparam`, the stored hook handles or the
answer of `CallNextHookEx` change. -/
theorem C9_recognition_exact (c : callback) (next : Nat) (code : Int) (wparam lparam : Nat) :
    (recognised (keyboardCallback c next code wparam lparam).1 = true ↔
        code ≥ 0 ∧ wparam = WM_KEYDOWN) ∧
    (recognised (mouseCallback c next code wparam lparam).1 = true ↔
        code ≥ 0 ∧ (wparam = WM_LBUTTONDOWN ∨ wparam = WM_RBUTTONDOWN ∨
          wparam = WM_MBUTTONDOWN ∨ wparam = WM_XBUTTONDOWN)) ∧
    (∀ (c2 : callback) (next2 lparam2 : Nat),
        recognised (keyboardCallback c2 next2 code wparam lparam2).1 =
          recognised (keyboardCallback c next code wparam lparam).1 ∧
        recognised (mouseCallback c2 next2 code wparam lparam2).1 =
          recognised (mouseCallback c next code wparam lparam).1) := by
  refine ⟨recognised_keyboardCallback c next code wparam lparam,
    recognised_mouseCallback c next code wparam lparam, ?_⟩
  intro c2 next2 lparam2
  constructor
  · rw [Bool.eq_iff_iff, recognised_keyboardCallback, recognised_keyboardCallback]
  · rw [Bool.eq_iff_iff, recognised_mouseCallback, recognised_mouseCallback]

/-! ## The error sentinel of `GetMessageW` (C10) -/

/-- C10 (the code at the failing input): when `GetMessageW` answers the 32-bit value
`-1` in a zero-extended 64-bit word, `0x00000000FFFFFFFF`, the wrapper `GetMessage`
returns `4294967295`, which is not `<= 0`; the message loop does not break on it but
translates and dispatches and calls `GetMessageW` again.  -/
theorem C10_sentinel_zero_extended_is_positive :
    (0xFFFFFFFF : Nat) % 2 ^ 32 = 0xFFFFFFFF ∧
    (GetMessage ⟨0xFFFFFFFF, sampleMsg⟩ MSG.zero 0 0 0).2.1 = 4294967295 ∧
    ¬ (GetMessage ⟨0xFFFFFFFF, sampleMsg⟩ MSG.zero 0 0 0).2.1 ≤ 0 ∧
    (messageLoop MSG.zero [⟨0xFFFFFFFF, sampleMsg⟩]).2 = false ∧
    (messageLoop MSG.zero [⟨0xFFFFFFFF, sampleMsg⟩]).1.filterMap Event.loopAct =
      [.get, .translate sampleMsg, .dispatch sampleMsg, .get] := by
  decide

/-- What the wrapper does instead: `GetMessage` returns a value `<= 0` exactly when
the whole 64-bit word is zero or has its top bit set. -/
theorem GetMessage_nonpos_iff (r : Nat) (hr : r < 2 ^ 64) (m msg : MSG) (hwnd lo hi : Nat) :
    (GetMessage ⟨r, m⟩ msg hwnd lo hi).2.1 ≤ 0 ↔ r = 0 ∨ 2 ^ 63 ≤ r := by
  simp only [GetMessage]
  by_cases h : r < 2 ^ 63
  · rw [toInt_of_lt h]; omega
  · rw [toInt_of_ge (by omega) hr]; omega

/-! ## The message loop (C8) -/

/-- C8: let the results of `GetMessage` be `r1..rn` (the answers `pre` followed by
`last`), where `rn` is the first that is `<= 0`.  Then the loop is left, and what the
platform sees of the loop is: for each of the messages `1..n-1`, in retrieval order,
one `GetMessageW` call, then `TranslateMessage` and then `DispatchMessageW` once
with that message; then the `n`-th `GetMessageW` call and nothing more: no
translate or dispatch for message `n` and no further `GetMessageW` call, whatever the
platform would have answered next (`rest`). -/
theorem C8_message_loop_steps (msg : MSG) (pre : List GetMessageResp) (last : GetMessageResp)
    (rest : List GetMessageResp)
    (hpre : ∀ g ∈ pre, ¬ (GetMessage g msg 0 0 0).2.1 ≤ 0)
    (hlast : (GetMessage last msg 0 0 0).2.1 ≤ 0) :
    (messageLoop msg (pre ++ last :: rest)).2 = true ∧
    (messageLoop msg (pre ++ last :: rest)).1.filterMap Event.loopAct =
      pre.flatMap (fun g => [.get, .translate g.msg, .dispatch g.msg]) ++ [.get] := by
  simp only [GetMessage] at hpre hlast
  induction pre generalizing msg with
  | nil =>
    simp [messageLoop, GetMessage, hlast, Event.loopAct]
  | cons g pre ih =>
    have hg : ¬ toInt g.ret ≤ 0 := hpre g (by simp)
    have ih2 := ih g.msg (fun x hx => hpre x (by simp [hx]))
    simp [messageLoop, GetMessage, hg, Event.loopAct, TranslateMessage, DispatchMessage]
    simp [GetMessage] at ih2
    exact ih2

/-- Witness for C8: two messages, then the answer `0`, then an answer never asked
for. -/
theorem C8_message_loop_steps_witness :
    (messageLoop MSG.zero
        ([⟨1, sampleMsg⟩, ⟨7, MSG.zero⟩] ++ ⟨0, sampleMsg⟩ :: [⟨1, sampleMsg⟩])).2 = true ∧
    (messageLoop MSG.zero
        ([⟨1, sampleMsg⟩, ⟨7, MSG.zero⟩] ++ ⟨0, sampleMsg⟩ :: [⟨1, sampleMsg⟩])).1.filterMap
        Event.loopAct =
      [.get, .translate sampleMsg, .dispatch sampleMsg,
       .get, .translate MSG.zero, .dispatch MSG.zero, .get] :=
  C8_message_loop_steps MSG.zero [⟨1, sampleMsg⟩, ⟨7, MSG.zero⟩] ⟨0, sampleMsg⟩
    [⟨1, sampleMsg⟩] (by decide) (by decide)

/-! ## Releasing the hooks (C4) -/

/-- C4: on every run in which `main` returns (early return after a failed
`GetModuleHandle`, `LoadCursorResource` or `RegisterClassEx`, or leaving the message
loop), the calls of `UnhookWindowsHookEx` are exactly two: one with the keyboard hook
handle, then one with the mouse hook handle, these being the handles
`SetWindowsHookEx` returned and `cb` holds.  When the two handles differ, each of
them is unhooked exactly once. -/
theorem C4_unhook_each_hook_once (P : Platform) (hexit : (main P).exited = true) :
    (main P).cb = ⟨P.hookKeyboard, P.hookMouse⟩ ∧
    callsOf .procUnhookWindowsHookEx (main P).trace =
      [[.word (main P).cb.hookKeyboard], [.word (main P).cb.hookMouse]] ∧
    ((main P).cb.hookKeyboard ≠ (main P).cb.hookMouse →
      (callsOf .procUnhookWindowsHookEx (main P).trace).count
          [.word (main P).cb.hookKeyboard] = 1 ∧
      (callsOf .procUnhookWindowsHookEx (main P).trace).count
          [.word (main P).cb.hookMouse] = 1) := by
  have hcb : (main P).cb = ⟨P.hookKeyboard, P.hookMouse⟩ := by
    by_cases h1 : P.moduleHandle.1 = 0
    · exact (main_of_moduleHandle_zero P h1).2.2.2
    by_cases h2 : P.cursor.1 = 0
    · exact (main_of_cursor_zero P h1 h2).2.2.2
    by_cases h3 : P.classAtom.1 = 0
    · exact (main_of_classAtom_zero P h1 h2 h3).2.2.2
    exact (main_of_setup_ok P h1 h2 h3).2.2.2
  have hcalls := callsOf_unhook_main P hexit
  refine ⟨hcb, ?_, ?_⟩
  · rw [hcalls, hcb]
  · rw [hcalls, hcb]
    intro hne
    have hne2 : P.hookMouse ≠ P.hookKeyboard := fun h => hne h.symm
    simp [List.count_cons, hne, hne2]

/-- Witness for C4: the four ways `main` returns, each on a concrete platform. -/
theorem C4_unhook_each_hook_once_witness :
    (main quitAtOnce).exited = true ∧
    callsOf .procUnhookWindowsHookEx (main quitAtOnce).trace = [[.word 0x1001], [.word 0x1002]] ∧
    (callsOf .procUnhookWindowsHookEx (main quitAtOnce).trace).count [.word 0x1001] = 1 ∧
    (callsOf .procUnhookWindowsHookEx (main quitAtOnce).trace).count [.word 0x1002] = 1 ∧
    (main { quitAtOnce with moduleHandle := (0, 5) }).exited = true ∧
    (main { quitAtOnce with cursor := (0, 5) }).exited = true ∧
    (main { quitAtOnce with classAtom := (0, 5) }).exited = true :=
  have h := C4_unhook_each_hook_once quitAtOnce (by decide)
  ⟨by decide, h.2.1, (h.2.2 (by decide)).1, (h.2.2 (by decide)).2,
    by decide, by decide, by decide⟩

/-! ## Shutdown and the window (C5) -/

/-- C2 (the code at the failing input): when `SetWindowsHookEx` returns the null
handle `0` for the keyboard hook, or for the mouse hook, `main` does not return early:
it goes on to call `CreateWindowExW` and then `GetMessageW`.  The null handle only
comes back in the deferred `UnhookWindowsHookEx` call. -/
theorem C2_null_hook_not_detected :
    (keyboardHookRefused.hookKeyboard = 0 ∧
      (callsOf .pCreateWindowExW (main keyboardHookRefused).trace).length = 1 ∧
      (callsOf .procGetMessage (main keyboardHookRefused).trace).length = 1 ∧
      (main keyboardHookRefused).trace.filterMap Event.loopAct = [.get] ∧
      callsOf .procUnhookWindowsHookEx (main keyboardHookRefused).trace =
        [[.word 0], [.word 0x1002]]) ∧
    (mouseHookRefused.hookMouse = 0 ∧
      (callsOf .pCreateWindowExW (main mouseHookRefused).trace).length = 1 ∧
      (callsOf .procGetMessage (main mouseHookRefused).trace).length = 1 ∧
      (main mouseHookRefused).trace.filterMap Event.loopAct = [.get] ∧
      callsOf .procUnhookWindowsHookEx (main mouseHookRefused).trace =
        [[.word 0x1001], [.word 0]]) := by
  decide

/-! ## Failed window set-up (C3) -/

/-- The three checked set-up failures: when `GetModuleHandle`, `LoadCursorResource`
or `RegisterClassEx` returns an error (the platform answers `0`), `main` logs the
error and returns without any `GetMessageW`, `TranslateMessage` or
`DispatchMessageW` call. -/
theorem main_checked_failure_skips_loop (P : Platform)
    (h : P.moduleHandle.1 = 0 ∨ P.cursor.1 = 0 ∨ P.classAtom.1 = 0) :
    (main P).exited = true ∧ (main P).trace.filterMap Event.loopAct = [] := by
  have hsetup : ∀ n, ((setupEvents P).take n).filterMap Event.loopAct = [] := by
    intro n
    rw [List.filterMap_eq_nil_iff]
    intro e he
    have he2 := List.mem_of_mem_take he
    simp only [setupEvents, SetWindowsHookEx, GetModuleHandle, LoadCursorResource,
      RegisterClassEx, GetSystemMetrics, CreateWindow, SetWindowPos, List.mem_cons,
      List.mem_singleton, List.not_mem_nil, or_false] at he2
    rcases he2 with rfl | rfl | rfl | rfl | rfl | rfl | rfl | rfl | rfl <;> rfl
  by_cases h1 : P.moduleHandle.1 = 0
  · obtain ⟨ht, he, -, -⟩ := main_of_moduleHandle_zero P h1
    refine ⟨he, ?_⟩
    rw [ht, List.filterMap_append, List.filterMap_append, hsetup]
    rfl
  by_cases h2 : P.cursor.1 = 0
  · obtain ⟨ht, he, -, -⟩ := main_of_cursor_zero P h1 h2
    refine ⟨he, ?_⟩
    rw [ht, List.filterMap_append, List.filterMap_append, hsetup]
    rfl
  have h3 : P.classAtom.1 = 0 := by tauto
  obtain ⟨ht, he, -, -⟩ := main_of_classAtom_zero P h1 h2 h3
  refine ⟨he, ?_⟩
  rw [ht, List.filterMap_append, List.filterMap_append, hsetup]
  rfl

/-- C3 (the code at the failing input): when `CreateWindow` returns the null window
handle `0`, `main` does not return: it calls `SetWindowPos` with that handle, starts
the goroutine with it, and enters the message loop, where it retrieves, translates
and dispatches a message. -/
theorem C3_null_window_not_detected :
    windowRefused.hwnd = 0 ∧
    (main windowRefused).ticker = some ⟨0, 1000⟩ ∧
    (callsOf .pSetWindowPos (main windowRefused).trace).map List.head? = [some (.word 0)] ∧
    (main windowRefused).trace.filterMap Event.loopAct =
      [.get, .translate sampleMsg, .dispatch sampleMsg, .get] := by
  decide

/-! ## The extended window style (C6) -/

/-- C6 (the code at the failing input): `main` computes the extended style
`0x0A080028`, which has the bits `WS_EX_TOPMOST`, `WS_EX_NOACTIVATE`,
`WS_EX_TRANSPARENT` and `WS_EX_COMPOSITED` set, and passes it to `CreateWindow`; but
whatever `exStyle` is passed, the first argument `CreateWindow` hands to
`CreateWindowExW` is `0`, and so it is in the run of `main`. -/
theorem C6_exStyle_dropped :
    (WS_EX_COMPOSITED ||| WS_EX_LAYERED ||| WS_EX_NOACTIVATE ||| WS_EX_TOPMOST |||
        WS_EX_TRANSPARENT) % 2 ^ 32 = 0x0A080028 ∧
    (0x0A080028 &&& WS_EX_TOPMOST = WS_EX_TOPMOST ∧
      0x0A080028 &&& WS_EX_NOACTIVATE = WS_EX_NOACTIVATE ∧
      0x0A080028 &&& WS_EX_TRANSPARENT = WS_EX_TRANSPARENT ∧
      0x0A080028 &&& WS_EX_COMPOSITED = WS_EX_COMPOSITED) ∧
    (∀ (ret exStyle : Nat) (className windowName : String) (style : Nat)
        (x y width height : Int) (parent menu hinst : Nat),
      (callsOf .pCreateWindowExW
          [(CreateWindow ret exStyle className windowName style x y width height
            parent menu hinst).1]).map List.head? = [some (.word 0)]) ∧
    (callsOf .pCreateWindowExW (main quitAtOnce).trace).map List.head? = [some (.word 0)] := by
  refine ⟨by decide, by decide, ?_, by decide⟩
  intros
  simp [callsOf, CreateWindow]

/-! ## The counter (C1) -/

/-- C1 (counterexample): with `main` waiting in its message loop, one recognised
key-down event is delivered to `keyboardCallback` (N = 1, M = 0); the callback
reports it, and the counter afterwards is what it was before, not that plus one. -/
theorem C1_key_down_leaves_counter :
    ProgState.ofRun (main running) = some startState ∧
    [HookCall.keyboard 0 256 30 0].countP HookCall.isKeyDown = 1 ∧
    [HookCall.keyboard 0 256 30 0].countP HookCall.isMouseDown = 0 ∧
    recognised ((HookCall.keyboard 0 256 30 0).run startState.cb).1 = true ∧
    (runInvocations startState [.hook (.keyboard 0 256 30 0)]).counter = startState.counter ∧
    ¬ (runInvocations startState [.hook (.keyboard 0 256 30 0)]).counter =
        startState.counter + (1 + 0) := by
  decide

/-- C1 (amended): for every sequence of hook invocations containing N key-down events
and M mouse-button-down events, in any order, the counter after the sequence equals
its value before the sequence, and the callbacks have printed exactly N+M lines, one
for each recognised event (none lost, none reported twice). -/
theorem C1_hooks_report_but_do_not_count (s : ProgState) (hooks : List HookCall) :
    (runInvocations s (hooks.map .hook)).counter = s.counter ∧
    (printedLines (runInvocations s (hooks.map .hook)).out).length =
      (printedLines s.out).length +
        (hooks.countP HookCall.isKeyDown + hooks.countP HookCall.isMouseDown) := by
  rw [runInvocations_hooks]
  refine ⟨rfl, ?_⟩
  have := printedLines_hooks s.cb hooks
  simp only [printedLines] at this ⊢
  rw [List.filter_append, List.length_append, this]

/-! ## What a tick displays (C7) -/

/-- C7 (counterexample): with `main` waiting in its message loop, three key-down and
two mouse-button-down events are delivered and then one tick.  The counter is `1000`
when the tick arrives and `1001` after it, and the one message the tick sends to the
window has the payload `wparam = 0`, `lparam = 0`: nothing the tick hands to the
overlay is `5`. -/
theorem C7_tick_payload_is_zero :
    ProgState.ofRun (main running) = some startState ∧
    fiveEvents.countP HookCall.isKeyDown = 3 ∧
    fiveEvents.countP HookCall.isMouseDown = 2 ∧
    (runInvocations startState (fiveEvents.map .hook)).counter = 1000 ∧
    (runInvocations startState (fiveEvents.map .hook ++ [.tick 0])).counter = 1001 ∧
    sentPayloads (runInvocations startState (fiveEvents.map .hook ++ [.tick 0])).out =
      [(.word 0, .word 0)] ∧
    callsOf .pSendMessage (runInvocations startState (fiveEvents.map .hook ++ [.tick 0])).out =
      [[.word 0x2002, .word 35001, .word 0, .word 0]] ∧
    ¬ (Arg.word 5 ∈ (callsOf .pSendMessage
        (runInvocations startState (fiveEvents.map .hook ++ [.tick 0])).out).flatten) := by
  decide

/-- C7 (amended): starting from the state in which `main` enters its message loop
(counter `1000`), after any hook invocations followed by one tick, the tick has sent
the window `hwnd` the message `35001` with payload `wparam = 0`, `lparam = 0`, whatever
events were recognised; the counter was `1000` at the tick and is `1001` after it: it
counts ticks, not events. -/
theorem C7_tick_sends_fixed_message (P : Platform) (s : ProgState)
    (hs : ProgState.ofRun (main P) = some s) (hooks : List HookCall) (sendRet : Nat) :
    (runInvocations s (hooks.map .hook)).counter = 1000 ∧
    (runInvocations s (hooks.map .hook ++ [.tick sendRet])).counter = 1001 ∧
    (runInvocations s (hooks.map .hook ++ [.tick sendRet])).out =
      (runInvocations s (hooks.map .hook)).out ++
        [.call .pSendMessage [.word s.hwnd, .word 35001, .word 0, .word 0]] ∧
    sentPayloads (runInvocations s (hooks.map .hook ++ [.tick sendRet])).out =
      [(.word 0, .word 0)] := by
  have hstart : s.counter = 1000 ∧ s.out = [] := by
    by_cases h1 : P.moduleHandle.1 = 0
    · simp [ProgState.ofRun, (main_of_moduleHandle_zero P h1).2.2.1] at hs
    by_cases h2 : P.cursor.1 = 0
    · simp [ProgState.ofRun, (main_of_cursor_zero P h1 h2).2.2.1] at hs
    by_cases h3 : P.classAtom.1 = 0
    · simp [ProgState.ofRun, (main_of_classAtom_zero P h1 h2 h3).2.2.1] at hs
    simp [ProgState.ofRun, (main_of_setup_ok P h1 h2 h3).2.2.1] at hs
    subst hs
    exact ⟨rfl, rfl⟩
  have happ : runInvocations s (hooks.map .hook ++ [.tick sendRet]) =
      step (runInvocations s (hooks.map .hook)) (.tick sendRet) := by
    simp [runInvocations, List.foldl_append]
  rw [happ, runInvocations_hooks]
  refine ⟨hstart.1, ?_, ?_, ?_⟩
  · simp only [step, hstart.1]
    decide
  · simp only [step, SendMessage]
    have : toUintptr 35001 = 35001 := by decide
    rw [this]
  · simp only [step, SendMessage, hstart.2, List.nil_append]
    rw [sentPayloads_append, sentPayloads_hooks]
    rfl

/-- Witness for C7 (amended): the platform `running` and the five events. -/
theorem C7_tick_sends_fixed_message_witness :
    ProgState.ofRun (main running) = some startState ∧
    (runInvocations startState (fiveEvents.map .hook ++ [.tick 0])).counter = 1001 ∧
    sentPayloads (runInvocations startState (fiveEvents.map .hook ++ [.tick 0])).out =
      [(.word 0, .word 0)] :=
  have h := C7_tick_sends_fixed_message running startState (by decide) fiveEvents 0
  ⟨by decide, h.2.1, h.2.2.2⟩

end ApmTracker
